import Mathlib

/-! Shopping-cart context (`src/Context/index.jsx`)

A shallow embedding of the two parts of the module that carry behaviour:

* `initializeLocalStorage`, which seeds the keys `account` and `signOut` of the
  browser's `localStorage`;
* the state held by `ShoppingCartProvider`, its exposed mutators and the
  filtering effect (`filteredItemsByTitle`, `filteredItemsByCategory`,
  `filterBy` and the `useEffect` that calls `setFilteredItems`).

JavaScript values are modelled by small inductive types, a thrown exception by
`Except.error`, and `null` / `undefined` by explicit constructors.  JavaScript
strings are modelled by Lean strings (sequences of Unicode code points; on
well-formed strings substring containment on UTF-16 code units and on code
points coincide).  `String.prototype.toLowerCase` is a platform built-in whose
case tables are not part of the repository: every definition that uses it takes
it as the parameter `toLowerCase`.  The other built-ins the module calls
(`includes`, `Array.prototype.filter`, `JSON.parse`, `JSON.stringify`,
`localStorage.getItem` and `setItem`) are modelled from their standards;
`JSON.parse` is a tokenizer followed by a stack parser for the JSON grammar,
both total by recursion on their input.
-/

set_option autoImplicit false

namespace ShoppingCart

/-! ## JavaScript values -/

/-- Exceptions the modelled code can throw. -/
inductive JsError where
  /-- A method call or property access on `null` / `undefined`. -/
  | typeError
  /-- The exception of `JSON.parse` on text that is not JSON. -/
  | syntaxError
  deriving DecidableEq, Repr

/-- A value held in a state slot that is a string or `null`
(`searchByTitle`, `searchByCategory`, the `searchType` argument of `filterBy`,
the result of `localStorage.getItem`): `none` is `null`. -/
abbrev JsString := Option String

/-- JavaScript truthiness of a string-or-null value: `null` and `''` are falsy,
every other string is truthy. -/
def truthy : JsString → Bool
  | none => false
  | some s => s != ""

/-- Whether `needle` occurs in `hay` as a contiguous block (on character lists). -/
def includesChars : List Char → List Char → Bool
  | [], needle => needle.isEmpty
  | c :: hay, needle => needle.isPrefixOf (c :: hay) || includesChars hay needle

/-- The built-in `String.prototype.includes`: `s.includes(sub)`. -/
def includes (s sub : String) : Bool :=
  includesChars s.data sub.data

/-- A method call `x.toLowerCase()` on a string-or-null value: a `TypeError`
on `null`. -/
def callToLowerCase (toLowerCase : String → String) : JsString → Except JsError String
  | none => .error .typeError
  | some s => .ok (toLowerCase s)

/-- Lower-casing of the ASCII letters, every other character kept: what
`toLowerCase` does on ASCII text.  Used to evaluate the model on examples. -/
def asciiToLowerCase (s : String) : String :=
  ⟨s.data.map fun c => if 65 ≤ c.toNat ∧ c.toNat ≤ 90 then Char.ofNat (c.toNat + 32) else c⟩

/-! ## JSON -/

/-- A JSON value.  A string is its sequence of UTF-16 code units, a number is
kept as the text of its literal, an object is the list of its members in the
order of the text. -/
inductive Json where
  | null
  | bool (b : Bool)
  | number (literal : List Char)
  | string (units : List Nat)
  | array (elements : List Json)
  | object (members : List (List Nat × Json))
  deriving Repr

/-- The tokens of a JSON text: the six structural characters and the scalar
values (strings, numbers, `true`, `false`, `null`). -/
inductive Token where
  | beginObject
  | endObject
  | beginArray
  | endArray
  | comma
  | colon
  | scalar (v : Json)

/-- JSON white space: space, tab, line feed, carriage return. -/
def isJsonSpace (c : Char) : Bool :=
  c = ' ' || c = '\t' || c = '\n' || c = '\r'

/-- The characters of which numbers and the literals `true`, `false`, `null`
are made. -/
def isBareChar (c : Char) : Bool :=
  c.isAlphanum || c = '-' || c = '+' || c = '.'

/-- Drops a non-empty run of decimal digits. -/
def dropDigits1 : List Char → Option (List Char)
  | [] => none
  | c :: cs => if c.isDigit then some (cs.dropWhile Char.isDigit) else none

/-- The integer part of a number: `0`, or a digit `1`-`9` followed by digits. -/
def dropIntPart : List Char → Option (List Char)
  | [] => none
  | c :: cs =>
    if c = '0' then some cs
    else if c.isDigit then some (cs.dropWhile Char.isDigit)
    else none

/-- The optional fraction: `.` followed by one or more digits. -/
def dropFraction : List Char → Option (List Char)
  | '.' :: cs => dropDigits1 cs
  | cs => some cs

/-- The sign and digits that follow the `e` of an exponent. -/
def dropExponentTail : List Char → Option (List Char)
  | [] => none
  | c :: cs => if c = '+' ∨ c = '-' then dropDigits1 cs else dropDigits1 (c :: cs)

/-- The optional exponent: `e` or `E`, an optional sign, one or more digits. -/
def dropExponent : List Char → Option (List Char)
  | [] => some []
  | c :: cs => if c = 'e' ∨ c = 'E' then dropExponentTail cs else some (c :: cs)

/-- Whether the text is a JSON number literal:
`-? (0 | [1-9][0-9]*) (. [0-9]+)? ([eE] [+-]? [0-9]+)?`. -/
def isNumberLiteral (cs : List Char) : Bool :=
  let unsigned := match cs with
    | '-' :: rest => rest
    | _ => cs
  match (dropIntPart unsigned).bind dropFraction |>.bind dropExponent with
  | some [] => true
  | _ => false

/-- The scalar denoted by a run of bare characters. -/
def bareScalar (cs : List Char) : Option Json :=
  if cs = "null".data then some .null
  else if cs = "true".data then some (.bool true)
  else if cs = "false".data then some (.bool false)
  else if isNumberLiteral cs then some (.number cs)
  else none

/-- The value of a hexadecimal digit. -/
def hexValue (c : Char) : Option Nat :=
  if c.isDigit then some (c.toNat - 48)
  else if 97 ≤ c.toNat ∧ c.toNat ≤ 102 then some (c.toNat - 87)
  else if 65 ≤ c.toNat ∧ c.toNat ≤ 70 then some (c.toNat - 55)
  else none

/-- The UTF-16 code units of a character. -/
def utf16 (c : Char) : List Nat :=
  if c.toNat < 65536 then [c.toNat]
  else [55296 + (c.toNat - 65536) / 1024, 56320 + (c.toNat - 65536) % 1024]

/-- The code unit of a single-character escape `\\c`. -/
def simpleEscape (c : Char) : Option Nat :=
  if c = '"' then some 34
  else if c = '\\' then some 92
  else if c = '/' then some 47
  else if c = 'b' then some 8
  else if c = 'f' then some 12
  else if c = 'n' then some 10
  else if c = 'r' then some 13
  else if c = 't' then some 9
  else none

/-- Decodes the text between the quotes of a string literal: control characters
are not allowed, a backslash starts one of the escapes of the JSON grammar. -/
def decodeString : List Char → Option (List Nat)
  | [] => some []
  | c :: cs =>
    if c = '\\' then
      match cs with
      | [] => none
      | e :: rest =>
        if e = 'u' then
          match rest with
          | h1 :: h2 :: h3 :: h4 :: rest4 =>
            match hexValue h1, hexValue h2, hexValue h3, hexValue h4, decodeString rest4 with
            | some a, some b, some c, some d, some us =>
              some ((((a * 16 + b) * 16 + c) * 16 + d) :: us)
            | _, _, _, _, _ => none
          | _ => none
        else
          match simpleEscape e, decodeString rest with
          | some u, some us => some (u :: us)
          | _, _ => none
    else if c.toNat < 32 then none
    else (decodeString cs).map (utf16 c ++ ·)

/-- The state of the tokenizer between two characters. -/
inductive LexMode where
  /-- Between tokens. -/
  | idle
  /-- Inside a run of bare characters, the run so far in reverse. -/
  | bare (acc : List Char)
  /-- Inside a string literal, the text so far in reverse; `escaped` holds
  after a backslash that is not itself escaped. -/
  | str (acc : List Char) (escaped : Bool)

/-- One character read between tokens: the next mode and the token emitted. -/
def lexIdle (c : Char) : Option (LexMode × List Token) :=
  if isJsonSpace c then some (.idle, [])
  else if c = '"' then some (.str [] false, [])
  else if c = '{' then some (.idle, [.beginObject])
  else if c = '}' then some (.idle, [.endObject])
  else if c = '[' then some (.idle, [.beginArray])
  else if c = ']' then some (.idle, [.endArray])
  else if c = ',' then some (.idle, [.comma])
  else if c = ':' then some (.idle, [.colon])
  else if isBareChar c then some (.bare [c], [])
  else none

/-- One character read by the tokenizer. -/
def lexStep : LexMode → Char → Option (LexMode × List Token)
  | .idle, c => lexIdle c
  | .bare acc, c =>
    if isBareChar c then some (.bare (c :: acc), [])
    else
      match bareScalar acc.reverse, lexIdle c with
      | some v, some (mode, toks) => some (mode, .scalar v :: toks)
      | _, _ => none
  | .str acc escaped, c =>
    if escaped then some (.str (c :: acc) false, [])
    else if c = '\\' then some (.str (c :: acc) true, [])
    else if c = '"' then
      match decodeString acc.reverse with
      | some us => some (.idle, [.scalar (.string us)])
      | none => none
    else some (.str (c :: acc) false, [])

/-- The tokens of a text, or `none` when it has a character or a scalar that
is not JSON. -/
def lexAll : LexMode → List Char → Option (List Token)
  | .idle, [] => some []
  | .bare acc, [] => (bareScalar acc.reverse).map fun v => [.scalar v]
  | .str _ _, [] => none
  | mode, c :: cs =>
    match lexStep mode c with
    | none => none
    | some (mode1, toks) => (lexAll mode1 cs).map (toks ++ ·)

/-- An array or object under construction, enclosing the value being read. -/
inductive Frame where
  /-- An array, its elements so far in reverse. -/
  | arr (done : List Json)
  /-- An object, its members so far in reverse and the key whose value is
  being read. -/
  | obj (done : List (List Nat × Json)) (key : List Nat)

/-- What the grammar allows next. -/
inductive Expect where
  /-- A value. -/
  | value
  /-- Just after `[`: a value or `]`. -/
  | valueOrEndArray
  /-- After an element of the innermost array: `,` or `]`. -/
  | commaOrEndArray
  /-- Just after `{`: a key or `}`. -/
  | keyOrEndObject
  /-- After `,` in an object: a key. -/
  | key (done : List (List Nat × Json))
  /-- After a key: `:`. -/
  | colon (done : List (List Nat × Json)) (key : List Nat)
  /-- After a member: `,` or `}`. -/
  | commaOrEndObject (done : List (List Nat × Json))
  /-- The whole value has been read: nothing. -/
  | finished (v : Json)

/-- A completed value is handed to the innermost enclosing array or object. -/
def deliver (v : Json) : List Frame → List Frame × Expect
  | [] => ([], .finished v)
  | .arr done :: stack => (.arr (v :: done) :: stack, .commaOrEndArray)
  | .obj done key :: stack => (stack, .commaOrEndObject ((key, v) :: done))

/-- A token where a value is expected. -/
def startValue (stack : List Frame) : Token → Option (List Frame × Expect)
  | .scalar v => some (deliver v stack)
  | .beginArray => some (.arr [] :: stack, .valueOrEndArray)
  | .beginObject => some (stack, .keyOrEndObject)
  | _ => none

/-- A token where a key is expected. -/
def startKey (stack : List Frame) (done : List (List Nat × Json)) :
    Token → Option (List Frame × Expect)
  | .scalar (.string k) => some (stack, .colon done k)
  | _ => none

/-- One token read by the parser. -/
def parseStep : List Frame × Expect → Token → Option (List Frame × Expect)
  | (stack, .value), tok => startValue stack tok
  | (.arr done :: stack, .valueOrEndArray), .endArray => some (deliver (.array done.reverse) stack)
  | (stack, .valueOrEndArray), tok => startValue stack tok
  | (.arr done :: stack, .commaOrEndArray), .endArray => some (deliver (.array done.reverse) stack)
  | (stack, .commaOrEndArray), .comma => some (stack, .value)
  | (stack, .keyOrEndObject), .endObject => some (deliver (.object []) stack)
  | (stack, .keyOrEndObject), tok => startKey stack [] tok
  | (stack, .key done), tok => startKey stack done tok
  | (stack, .colon done key), .colon => some (.obj done key :: stack, .value)
  | (stack, .commaOrEndObject done), .endObject => some (deliver (.object done.reverse) stack)
  | (stack, .commaOrEndObject done), .comma => some (stack, .key done)
  | _, _ => none

/-- The parser run over the tokens. -/
def parseTokens : List Frame × Expect → List Token → Option (List Frame × Expect)
  | st, [] => some st
  | st, tok :: toks =>
    match parseStep st tok with
    | none => none
    | some st1 => parseTokens st1 toks

/-- The built-in `JSON.parse` on a text: the value it denotes, or a
`SyntaxError` when the text is not JSON. -/
def JSON.parse (text : String) : Except JsError Json :=
  match (lexAll .idle text.data).bind (parseTokens ([], .value)) with
  | some ([], .finished v) => .ok v
  | _ => .error .syntaxError

/-- A hexadecimal digit in lower case. -/
def hexDigit (n : Nat) : Char :=
  if n < 10 then Char.ofNat (48 + n) else Char.ofNat (87 + n)

/-- The escape `\\uXXXX` of a code unit. -/
def unicodeEscape (u : Nat) : List Char :=
  ['\\', 'u', hexDigit (u / 4096 % 16), hexDigit (u / 256 % 16), hexDigit (u / 16 % 16),
    hexDigit (u % 16)]

/-- The text of a string between its quotes as `JSON.stringify` writes it:
the quote, the backslash and the control characters are escaped, a lone
surrogate is written as an escape, every other character is written as is. -/
def quoteUnits : List Nat → List Char
  | [] => []
  | u :: us =>
    if u = 34 then '\\' :: '"' :: quoteUnits us
    else if u = 92 then '\\' :: '\\' :: quoteUnits us
    else if u = 8 then '\\' :: 'b' :: quoteUnits us
    else if u = 12 then '\\' :: 'f' :: quoteUnits us
    else if u = 10 then '\\' :: 'n' :: quoteUnits us
    else if u = 13 then '\\' :: 'r' :: quoteUnits us
    else if u = 9 then '\\' :: 't' :: quoteUnits us
    else if u < 32 then unicodeEscape u ++ quoteUnits us
    else if 55296 ≤ u ∧ u < 56320 then
      match us with
      | [] => unicodeEscape u
      | l :: rest =>
        if 56320 ≤ l ∧ l < 57344 then
          Char.ofNat (65536 + (u - 55296) * 1024 + (l - 56320)) :: quoteUnits rest
        else unicodeEscape u ++ quoteUnits (l :: rest)
    else if 56320 ≤ u ∧ u < 57344 then unicodeEscape u ++ quoteUnits us
    else Char.ofNat u :: quoteUnits us

mutual
/-- The characters `JSON.stringify` writes for a value (no indentation). -/
def stringifyChars : Json → List Char
  | .null => "null".data
  | .bool true => "true".data
  | .bool false => "false".data
  | .number literal => literal
  | .string units => '"' :: quoteUnits units ++ ['"']
  | .array elements => '[' :: stringifyElements elements ++ [']']
  | .object members => '{' :: stringifyMembers members ++ ['}']
/-- The elements of an array, separated by commas. -/
def stringifyElements : List Json → List Char
  | [] => []
  | [v] => stringifyChars v
  | v :: vs => stringifyChars v ++ ',' :: stringifyElements vs
/-- The members of an object, separated by commas. -/
def stringifyMembers : List (List Nat × Json) → List Char
  | [] => []
  | [(k, v)] => '"' :: quoteUnits k ++ '"' :: ':' :: stringifyChars v
  | (k, v) :: ms => '"' :: quoteUnits k ++ '"' :: ':' :: stringifyChars v ++ ',' :: stringifyMembers ms
end

/-- The built-in `JSON.stringify` on a JSON value. -/
def JSON.stringify (v : Json) : String :=
  ⟨stringifyChars v⟩

/-! ## `localStorage` and `initializeLocalStorage` -/

/-- `JSON.parse(x)` on a string-or-null value: `null` is first converted to the
text `null`. -/
def JSON.parseStored : JsString → Except JsError Json
  | none => JSON.parse "null"
  | some text => JSON.parse text

/-- The browser's `localStorage`: the stored key/value pairs in the order in
which the keys were first set. -/
abbrev Storage := List (String × String)

/-- The built-in `localStorage.getItem(key)`: the text stored under `key`, or
`null` when the key is absent. -/
def Storage.getItem : Storage → String → JsString
  | [], _ => none
  | (k, v) :: rest, key => if k = key then some v else Storage.getItem rest key

/-- The built-in `localStorage.setItem(key, value)`: replaces the text of a
stored key in place, appends a key that is absent. -/
def Storage.setItem : Storage → String → String → Storage
  | [], key, value => [(key, value)]
  | (k, v) :: rest, key, value =>
    if k = key then (k, value) :: rest else (k, v) :: Storage.setItem rest key value

/-- What a call of `initializeLocalStorage` leaves behind: the storage after
the call, the `setItem` calls it made (key and text, in order), and whether it
returned or threw. -/
structure StorageRun where
  storage : Storage
  writes : List (String × String)
  outcome : Except JsError Unit

/-- Source: `initializeLocalStorage`.  Both keys are read first; then the
`account` statement runs, then the `signOut` statement, unless the first threw. -/
def initializeLocalStorage (localStorage : Storage) : StorageRun :=
  let accountInLocalStorage := localStorage.getItem "account"
  let signOutInLocalStorage := localStorage.getItem "signOut"
  let afterAccount : StorageRun :=
    if !truthy accountInLocalStorage then
      { storage := localStorage.setItem "account" (JSON.stringify (.object []))
        writes := [("account", JSON.stringify (.object []))]
        outcome := .ok () }
    else
      match JSON.parseStored accountInLocalStorage with
      | .error e => { storage := localStorage, writes := [], outcome := .error e }
      | .ok _ => { storage := localStorage, writes := [], outcome := .ok () }
  match afterAccount.outcome with
  | .error e => { afterAccount with outcome := .error e }
  | .ok _ =>
    if !truthy signOutInLocalStorage then
      { storage := afterAccount.storage.setItem "signOut" (JSON.stringify (.bool false))
        writes := afterAccount.writes ++ [("signOut", JSON.stringify (.bool false))]
        outcome := .ok () }
    else
      match JSON.parseStored signOutInLocalStorage with
      | .error e => { afterAccount with outcome := .error e }
      | .ok _ => { afterAccount with outcome := .ok () }

/-! ## Catalog items -/

/-- The `category` object of a catalog item. -/
structure Category where
  name : String
  deriving DecidableEq, Repr

/-- A catalog item: the fields the module reads (`title`, `category.name`)
and its `id`. -/
structure Item where
  id : Nat
  title : String
  category : Category
  deriving DecidableEq, Repr

/-- A value of the state slots `items` and `filteredItems`, and of the results
of the filtering functions: `null`, `undefined` or an array of items. -/
inductive ItemsVal where
  | null
  | undefined
  | array (xs : List Item)
  deriving DecidableEq, Repr

/-- The built-in `Array.prototype.filter` with a callback that may throw: the
callback runs on every element in order, the first exception propagates. -/
def arrayFilter (callback : Item → Except JsError Bool) : List Item → Except JsError (List Item)
  | [] => .ok []
  | x :: xs =>
    match callback x with
    | .error e => .error e
    | .ok keep =>
      match arrayFilter callback xs with
      | .error e => .error e
      | .ok rest => .ok (if keep then x :: rest else rest)

/-- The callback `item => item.title.toLowerCase().includes(searchByTitle.toLowerCase())`. -/
def titleCallback (toLowerCase : String → String) (searchByTitle : JsString)
    (item : Item) : Except JsError Bool :=
  match callToLowerCase toLowerCase searchByTitle with
  | .error e => .error e
  | .ok needle => .ok (includes (toLowerCase item.title) needle)

/-- The callback
`item => item.category.name.toLowerCase().includes(searchByCategory.toLowerCase())`. -/
def categoryCallback (toLowerCase : String → String) (searchByCategory : JsString)
    (item : Item) : Except JsError Bool :=
  match callToLowerCase toLowerCase searchByCategory with
  | .error e => .error e
  | .ok needle => .ok (includes (toLowerCase item.category.name) needle)

/-- The call `v.filter(callback)` without optional chaining: a `TypeError` when
`v` is `null` or `undefined`. -/
def callFilter (callback : Item → Except JsError Bool) : ItemsVal → Except JsError ItemsVal
  | .null => .error .typeError
  | .undefined => .error .typeError
  | .array xs =>
    match arrayFilter callback xs with
    | .error e => .error e
    | .ok ys => .ok (.array ys)

/-- The call `v?.filter(callback)`: `undefined` when `v` is `null` or
`undefined`, the call itself otherwise. -/
def optionalCallFilter (callback : Item → Except JsError Bool) : ItemsVal → Except JsError ItemsVal
  | .null => .ok .undefined
  | .undefined => .ok .undefined
  | .array xs => callFilter callback (.array xs)

/-- Source: `filteredItemsByTitle`. -/
def filteredItemsByTitle (toLowerCase : String → String) (items : ItemsVal)
    (searchByTitle : JsString) : Except JsError ItemsVal :=
  optionalCallFilter (titleCallback toLowerCase searchByTitle) items

/-- Source: `filteredItemsByCategory`. -/
def filteredItemsByCategory (toLowerCase : String → String) (items : ItemsVal)
    (searchByCategory : JsString) : Except JsError ItemsVal :=
  optionalCallFilter (categoryCallback toLowerCase searchByCategory) items

/-- Source: `filterBy`.  The four `if` statements are tried in order; a
`searchType` that matches none of them falls off the end of the function,
which returns `undefined`. -/
def filterBy (toLowerCase : String → String) (searchType : JsString) (items : ItemsVal)
    (searchByTitle searchByCategory : JsString) : Except JsError ItemsVal :=
  if searchType = some "BY_TITLE" then
    filteredItemsByTitle toLowerCase items searchByTitle
  else if searchType = some "BY_CATEGORY" then
    filteredItemsByCategory toLowerCase items searchByCategory
  else if searchType = some "BY_TITLE_AND_CATEGORY" then
    match filteredItemsByCategory toLowerCase items searchByCategory with
    | .error e => .error e
    | .ok v => callFilter (titleCallback toLowerCase searchByTitle) v
  else if !truthy searchType then
    .ok items
  else
    .ok .undefined

/-! ## The state of `ShoppingCartProvider` -/

/-- The state slots of `ShoppingCartProvider` (one field per `useState`).
The empty object `{}` held by `productToShow` before a product is chosen is
`none`; the shapes of cart lines and orders are not fixed by the module and are
modelled by items and lists of items. -/
structure Store where
  account : List (String × String)
  signOut : Bool
  count : Int
  isProductDetailOpen : Bool
  isCheckoutSideMenuOpen : Bool
  productToShow : Option Item
  cartProducts : List Item
  order : List (List Item)
  items : ItemsVal
  filteredItems : ItemsVal
  searchByTitle : JsString
  searchByCategory : JsString
  deriving DecidableEq, Repr

/-- The initial values passed to `useState`. -/
def Store.initial : Store where
  account := []
  signOut := false
  count := 0
  isProductDetailOpen := false
  isCheckoutSideMenuOpen := false
  productToShow := none
  cartProducts := []
  order := []
  items := .null
  filteredItems := .null
  searchByTitle := none
  searchByCategory := none

/-- The state setter `setFilteredItems`; it is not part of the context value. -/
def setFilteredItems (s : Store) (v : ItemsVal) : Store :=
  { s with filteredItems := v }

/-- One statement `if (guard) setFilteredItems(filterBy(searchType, items,
searchByTitle, searchByCategory))` of the filtering effect.  `render` is the
state the effect closed over, `s` the state the setter acts on. -/
def effectStatement (toLowerCase : String → String) (guard : Bool) (searchType : JsString)
    (render s : Store) : Except JsError Store :=
  if guard then
    match filterBy toLowerCase searchType render.items render.searchByTitle
        render.searchByCategory with
    | .error e => .error e
    | .ok v => .ok (setFilteredItems s v)
  else
    .ok s

/-- Source: the body of the `useEffect` with dependencies
`[items, searchByTitle, searchByCategory]`: four `if` statements run in order. -/
def filteringEffect (toLowerCase : String → String) (s : Store) : Except JsError Store :=
  let t := truthy s.searchByTitle
  let c := truthy s.searchByCategory
  match effectStatement toLowerCase (t && c) (some "BY_TITLE_AND_CATEGORY") s s with
  | .error e => .error e
  | .ok s1 =>
    match effectStatement toLowerCase (t && !c) (some "BY_TITLE") s s1 with
    | .error e => .error e
    | .ok s2 =>
      match effectStatement toLowerCase (!t && c) (some "BY_CATEGORY") s s2 with
      | .error e => .error e
      | .ok s3 => effectStatement toLowerCase (!t && !c) none s s3

/-- The members of the context value that change the state, with their argument. -/
inductive Action where
  | setCount (n : Int)
  | openProductDetail
  | closeProductDetail
  | setProductToShow (p : Option Item)
  | setCartProducts (ps : List Item)
  | openCheckoutSideMenu
  | closeCheckoutSideMenu
  | setOrder (o : List (List Item))
  | setItems (v : ItemsVal)
  | setSearchByTitle (t : JsString)
  | setSearchByCategory (c : JsString)
  | setAccount (a : List (String × String))
  | setSignOut (b : Bool)
  deriving DecidableEq, Repr

/-- The state update performed by an exposed mutator. -/
def mutate (s : Store) : Action → Store
  | .setCount n => { s with count := n }
  | .openProductDetail => { s with isProductDetailOpen := true }
  | .closeProductDetail => { s with isProductDetailOpen := false }
  | .setProductToShow p => { s with productToShow := p }
  | .setCartProducts ps => { s with cartProducts := ps }
  | .openCheckoutSideMenu => { s with isCheckoutSideMenuOpen := true }
  | .closeCheckoutSideMenu => { s with isCheckoutSideMenuOpen := false }
  | .setOrder o => { s with order := o }
  | .setItems v => { s with items := v }
  | .setSearchByTitle t => { s with searchByTitle := t }
  | .setSearchByCategory c => { s with searchByCategory := c }
  | .setAccount a => { s with account := a }
  | .setSignOut b => { s with signOut := b }

/-- An exposed mutator followed by the filtering effect.  An exception thrown
by the effect leaves no state behind (the provider is unmounted). -/
def dispatch (toLowerCase : String → String) (s : Store) (a : Action) : Except JsError Store :=
  filteringEffect toLowerCase (mutate s a)

/-- The states the store can be in: the initial state and every state obtained
from a reachable one by a mutator whose effect completes. -/
inductive Reachable (toLowerCase : String → String) : Store → Prop where
  | initial : Reachable toLowerCase Store.initial
  | step {s s1 : Store} (a : Action) :
      Reachable toLowerCase s → dispatch toLowerCase s a = .ok s1 → Reachable toLowerCase s1

/-- The value the filtering effect hands to `setFilteredItems`, as a function
of the three inputs alone: the search type is chosen by which filters are
truthy. -/
def derivation (toLowerCase : String → String) (items : ItemsVal)
    (searchByTitle searchByCategory : JsString) : Except JsError ItemsVal :=
  match truthy searchByTitle, truthy searchByCategory with
  | true, true => filterBy toLowerCase (some "BY_TITLE_AND_CATEGORY") items searchByTitle searchByCategory
  | true, false => filterBy toLowerCase (some "BY_TITLE") items searchByTitle searchByCategory
  | false, true => filterBy toLowerCase (some "BY_CATEGORY") items searchByTitle searchByCategory
  | false, false => filterBy toLowerCase none items searchByTitle searchByCategory

/-- The title predicate of the specification: the lower-cased title contains
the lower-cased filter. -/
def titleMatches (toLowerCase : String → String) (t : String) (item : Item) : Bool :=
  includes (toLowerCase item.title) (toLowerCase t)

/-- The category predicate of the specification: the lower-cased category name
contains the lower-cased filter. -/
def categoryMatches (toLowerCase : String → String) (c : String) (item : Item) : Bool :=
  includes (toLowerCase item.category.name) (toLowerCase c)

/-- The stored text of the specification's example: the object with member `id`
equal to 5. -/
def idFiveText : String := "\x7b\"id\":5\x7d"

/-- The two-item catalog of the specification's examples. -/
def redShirt : Item := { id := 1, title := "Red Shirt", category := { name := "Clothes" } }

/-- Second item of the example catalog. -/
def blueHat : Item := { id := 2, title := "Blue Hat", category := { name := "Accessories" } }

/-- The example catalog `[Red Shirt/Clothes, Blue Hat/Accessories]`. -/
def exampleCatalog : List Item := [redShirt, blueHat]

/-- The `return` of `filterBy` that is reached: one of its four `if`
statements, or the end of the function body. -/
inductive FilterByBranch where
  | byTitle
  | byCategory
  | byTitleAndCategory
  | falsyType
  | fallThrough
  deriving DecidableEq, Repr

/-- Source: the conditions of the four `if` statements of `filterBy`, tried in
order. -/
def filterByBranch (searchType : JsString) : FilterByBranch :=
  if searchType = some "BY_TITLE" then .byTitle
  else if searchType = some "BY_CATEGORY" then .byCategory
  else if searchType = some "BY_TITLE_AND_CATEGORY" then .byTitleAndCategory
  else if !truthy searchType then .falsyType
  else .fallThrough

/-- Source: the four statements of the filtering effect, in order: the value of
the guard and the search type passed to `filterBy`. -/
def effectStatements (searchByTitle searchByCategory : JsString) : List (Bool × JsString) :=
  [ (truthy searchByTitle && truthy searchByCategory, some "BY_TITLE_AND_CATEGORY"),
    (truthy searchByTitle && !truthy searchByCategory, some "BY_TITLE"),
    (!truthy searchByTitle && truthy searchByCategory, some "BY_CATEGORY"),
    (!truthy searchByTitle && !truthy searchByCategory, none) ]

/-- What a run of the filtering effect does: the search type of each call of
`filterBy`, the argument of each call of `setFilteredItems`, both in order,
and the state it ends in or the exception it throws. -/
structure EffectRun where
  searchTypes : List JsString
  setterCalls : List ItemsVal
  outcome : Except JsError Store

/-- The statements of the effect run in order from state `s`, with the calls
recorded.  In `if (guard) setFilteredItems(filterBy(...))` the argument is
evaluated first: when `filterBy` throws, the setter is not called and no later
statement runs. -/
def runStatements (toLowerCase : String → String) (render : Store) :
    List (Bool × JsString) → Store → EffectRun
  | [], s => { searchTypes := [], setterCalls := [], outcome := .ok s }
  | (guard, searchType) :: rest, s =>
    if guard then
      match filterBy toLowerCase searchType render.items render.searchByTitle
          render.searchByCategory with
      | .error e => { searchTypes := [searchType], setterCalls := [], outcome := .error e }
      | .ok v =>
        { searchTypes :=
            searchType :: (runStatements toLowerCase render rest (setFilteredItems s v)).searchTypes
          setterCalls :=
            v :: (runStatements toLowerCase render rest (setFilteredItems s v)).setterCalls
          outcome := (runStatements toLowerCase render rest (setFilteredItems s v)).outcome }
    else runStatements toLowerCase render rest s

/-- The filtering effect with its calls recorded. -/
def filteringEffectRun (toLowerCase : String → String) (s : Store) : EffectRun :=
  runStatements toLowerCase s (effectStatements s.searchByTitle s.searchByCategory) s

/-- The state in which the catalog is not loaded and both filters are set. -/
def absentCatalogBothFilters : Store :=
  { Store.initial with searchByTitle := some "shirt", searchByCategory := some "clothes" }

/-! ## Lemmas on the filtering functions -/

theorem includesChars_iff_infix (hay needle : List Char) :
    includesChars hay needle = true ↔ needle <:+: hay := by
  induction hay with
  | nil =>
    cases needle <;> simp [includesChars]
  | cons c hay ih =>
    rw [includesChars, Bool.or_eq_true, ih, List.isPrefixOf_iff_prefix, List.infix_cons_iff]

theorem arrayFilter_total (p : Item → Bool) (callback : Item → Except JsError Bool)
    (h : ∀ x, callback x = .ok (p x)) (xs : List Item) :
    arrayFilter callback xs = .ok (xs.filter p) := by
  induction xs with
  | nil => rfl
  | cons x xs ih =>
    rw [arrayFilter, h x, ih]
    cases hp : p x <;> simp [List.filter, hp]

theorem titleCallback_some (toLowerCase : String → String) (t : String) (item : Item) :
    titleCallback toLowerCase (some t) item = .ok (titleMatches toLowerCase t item) := rfl

theorem categoryCallback_some (toLowerCase : String → String) (c : String) (item : Item) :
    categoryCallback toLowerCase (some c) item = .ok (categoryMatches toLowerCase c item) := rfl

theorem callFilter_title (toLowerCase : String → String) (t : String) (xs : List Item) :
    callFilter (titleCallback toLowerCase (some t)) (.array xs)
      = .ok (.array (xs.filter (titleMatches toLowerCase t))) := by
  rw [callFilter, arrayFilter_total (titleMatches toLowerCase t) _
    (titleCallback_some toLowerCase t)]

theorem filteredItemsByTitle_array (toLowerCase : String → String) (t : String)
    (xs : List Item) :
    filteredItemsByTitle toLowerCase (.array xs) (some t)
      = .ok (.array (xs.filter (titleMatches toLowerCase t))) := by
  rw [filteredItemsByTitle, optionalCallFilter, callFilter_title]

theorem filteredItemsByCategory_array (toLowerCase : String → String) (c : String)
    (xs : List Item) :
    filteredItemsByCategory toLowerCase (.array xs) (some c)
      = .ok (.array (xs.filter (categoryMatches toLowerCase c))) := by
  rw [filteredItemsByCategory, optionalCallFilter, callFilter,
    arrayFilter_total (categoryMatches toLowerCase c) _ (categoryCallback_some toLowerCase c)]

theorem filterBy_title (toLowerCase : String → String) (items : ItemsVal)
    (t c : JsString) :
    filterBy toLowerCase (some "BY_TITLE") items t c
      = filteredItemsByTitle toLowerCase items t := by
  simp [filterBy]

theorem filterBy_category (toLowerCase : String → String) (items : ItemsVal)
    (t c : JsString) :
    filterBy toLowerCase (some "BY_CATEGORY") items t c
      = filteredItemsByCategory toLowerCase items c := by
  simp [filterBy]

theorem filterBy_both (toLowerCase : String → String) (items : ItemsVal)
    (t c : JsString) :
    filterBy toLowerCase (some "BY_TITLE_AND_CATEGORY") items t c
      = match filteredItemsByCategory toLowerCase items c with
        | .error e => .error e
        | .ok v => callFilter (titleCallback toLowerCase t) v := by
  simp [filterBy]

theorem filterBy_null (toLowerCase : String → String) (items : ItemsVal)
    (t c : JsString) :
    filterBy toLowerCase none items t c = .ok items := by
  simp [filterBy, truthy]

theorem filterBy_both_array (toLowerCase : String → String) (xs : List Item)
    (t c : String) :
    filterBy toLowerCase (some "BY_TITLE_AND_CATEGORY") (.array xs) (some t) (some c)
      = .ok (.array (xs.filter fun i =>
          titleMatches toLowerCase t i && categoryMatches toLowerCase c i)) := by
  rw [filterBy_both, filteredItemsByCategory_array]
  simp only [callFilter_title, List.filter_filter]

theorem filter_inter_filter (p q : Item → Bool) (xs : List Item) :
    (xs.filter p) ∩ (xs.filter q) = xs.filter (fun i => p i && q i) := by
  show List.filter _ _ = _
  rw [List.filter_filter]
  apply List.filter_congr
  intro i hi
  simp [List.mem_filter, hi, Bool.and_comm]

theorem truthy_some {t : String} (h : t ≠ "") : truthy (some t) = true := by
  simp [truthy, h]

/-- The four statements of the effect amount to one call of `setFilteredItems`
on the value of `derivation`. -/
theorem filteringEffect_eq (toLowerCase : String → String) (s : Store) :
    filteringEffect toLowerCase s
      = match derivation toLowerCase s.items s.searchByTitle s.searchByCategory with
        | .error e => .error e
        | .ok v => .ok (setFilteredItems s v) := by
  unfold filteringEffect derivation effectStatement
  cases truthy s.searchByTitle <;> cases truthy s.searchByCategory <;> simp <;>
    split <;> simp_all [setFilteredItems]

theorem derivation_both (toLowerCase : String → String) (items : ItemsVal) (t c : String)
    (ht : t ≠ "") (hc : c ≠ "") :
    derivation toLowerCase items (some t) (some c)
      = filterBy toLowerCase (some "BY_TITLE_AND_CATEGORY") items (some t) (some c) := by
  simp [derivation, truthy_some ht, truthy_some hc]

theorem derivation_title (toLowerCase : String → String) (items : ItemsVal) (t : String)
    (c : JsString) (ht : t ≠ "") (hc : truthy c = false) :
    derivation toLowerCase items (some t) c
      = filteredItemsByTitle toLowerCase items (some t) := by
  simp [derivation, truthy_some ht, hc, filterBy_title]

theorem derivation_category (toLowerCase : String → String) (items : ItemsVal) (t : JsString)
    (c : String) (ht : truthy t = false) (hc : c ≠ "") :
    derivation toLowerCase items t (some c)
      = filteredItemsByCategory toLowerCase items (some c) := by
  simp [derivation, truthy_some hc, ht, filterBy_category]

theorem derivation_none (toLowerCase : String → String) (items : ItemsVal) (t c : JsString)
    (ht : truthy t = false) (hc : truthy c = false) :
    derivation toLowerCase items t c = .ok items := by
  simp [derivation, ht, hc, filterBy_null]

theorem truthy_false_iff (t : JsString) : truthy t = false ↔ t = none ∨ t = some "" := by
  cases t <;> simp [truthy]

/-- On a present catalog the derivation returns an array, a sublist of the catalog. -/
theorem derivation_array (toLowerCase : String → String) (xs : List Item) (t c : JsString) :
    ∃ ys, derivation toLowerCase (.array xs) t c = .ok (.array ys) ∧ ys.Sublist xs := by
  cases ht : truthy t <;> cases hc : truthy c
  · exact ⟨xs, derivation_none toLowerCase _ t c ht hc, List.Sublist.refl xs⟩
  · obtain ⟨c, rfl⟩ : ∃ c1, c = some c1 := by cases c <;> simp_all [truthy]
    have hc1 : c ≠ "" := by simpa [truthy] using hc
    exact ⟨_, (derivation_category toLowerCase _ t c ht hc1).trans
      (filteredItemsByCategory_array toLowerCase c xs), List.filter_sublist xs⟩
  · obtain ⟨t, rfl⟩ : ∃ t1, t = some t1 := by cases t <;> simp_all [truthy]
    have ht1 : t ≠ "" := by simpa [truthy] using ht
    exact ⟨_, (derivation_title toLowerCase _ t c ht1 hc).trans
      (filteredItemsByTitle_array toLowerCase t xs), List.filter_sublist xs⟩
  · obtain ⟨t, rfl⟩ : ∃ t1, t = some t1 := by cases t <;> simp_all [truthy]
    obtain ⟨c, rfl⟩ : ∃ c1, c = some c1 := by cases c <;> simp_all [truthy]
    have ht1 : t ≠ "" := by simpa [truthy] using ht
    have hc1 : c ≠ "" := by simpa [truthy] using hc
    exact ⟨_, (derivation_both toLowerCase _ t c ht1 hc1).trans
      (filterBy_both_array toLowerCase xs t c), List.filter_sublist xs⟩

theorem filteringEffect_of_derivation (toLowerCase : String → String) (s : Store)
    (v : ItemsVal)
    (h : derivation toLowerCase s.items s.searchByTitle s.searchByCategory = .ok v) :
    filteringEffect toLowerCase s = .ok (setFilteredItems s v) := by
  rw [filteringEffect_eq, h]

theorem filteringEffect_ok (toLowerCase : String → String) (s s1 : Store)
    (h : filteringEffect toLowerCase s = .ok s1) :
    derivation toLowerCase s.items s.searchByTitle s.searchByCategory = .ok s1.filteredItems
      ∧ s1 = setFilteredItems s s1.filteredItems := by
  rw [filteringEffect_eq] at h
  split at h
  · simp at h
  · next v hv =>
    simp only [Except.ok.injEq] at h
    subst h
    exact ⟨hv, rfl⟩

/-! ## The filtering claims -/

/-- C1 (the code departs from the claim): with the catalog absent (`null`),
title filter "shirt" and category filter "clothes", `filterBy` with
'BY_TITLE_AND_CATEGORY' and the filtering effect raise a `TypeError` instead of
yielding an absent or empty result, while each single-filter path returns
`undefined` without an error. -/
theorem absent_catalog_both_filters_throws (toLowerCase : String → String) :
    filterBy toLowerCase (some "BY_TITLE_AND_CATEGORY") .null (some "shirt") (some "clothes")
        = .error .typeError
      ∧ filteringEffect toLowerCase
          { Store.initial with searchByTitle := some "shirt", searchByCategory := some "clothes" }
        = .error .typeError
      ∧ filterBy toLowerCase (some "BY_TITLE") .null (some "shirt") none = .ok .undefined
      ∧ filterBy toLowerCase (some "BY_CATEGORY") .null none (some "clothes") = .ok .undefined := by
  refine ⟨?_, ?_, ?_, ?_⟩
  · rw [filterBy_both]; rfl
  · rw [filteringEffect_eq, derivation_both _ _ _ _ (by decide) (by decide), filterBy_both]; rfl
  · rw [filterBy_title]; rfl
  · rw [filterBy_category]; rfl

/-- C5: on a present catalog with a non-empty title filter `t` and a non-empty
category filter `c`, `filterBy` with 'BY_TITLE_AND_CATEGORY' and the filtering
effect yield the catalog items, in catalog order, that satisfy both the title
and the category predicate; that list is the intersection of the two
single-filter results (an item is in it exactly when it is in both); and
filtering by title first, then by category, gives the same list. -/
theorem both_filters_intersection (toLowerCase : String → String) (s : Store)
    (xs : List Item) (t c : String) (ht : t ≠ "") (hc : c ≠ "") :
    filterBy toLowerCase (some "BY_TITLE_AND_CATEGORY") (.array xs) (some t) (some c)
        = .ok (.array (xs.filter fun i =>
            titleMatches toLowerCase t i && categoryMatches toLowerCase c i))
      ∧ filteringEffect toLowerCase
          { s with items := .array xs, searchByTitle := some t, searchByCategory := some c }
        = .ok { s with
            items := .array xs, searchByTitle := some t, searchByCategory := some c,
            filteredItems := .array (xs.filter fun i =>
              titleMatches toLowerCase t i && categoryMatches toLowerCase c i) }
      ∧ (xs.filter (titleMatches toLowerCase t)) ∩ (xs.filter (categoryMatches toLowerCase c))
        = (xs.filter fun i => titleMatches toLowerCase t i && categoryMatches toLowerCase c i)
      ∧ (∀ i, i ∈ (xs.filter fun i =>
            titleMatches toLowerCase t i && categoryMatches toLowerCase c i)
          ↔ i ∈ xs.filter (titleMatches toLowerCase t)
            ∧ i ∈ xs.filter (categoryMatches toLowerCase c))
      ∧ (∃ ys, filteredItemsByTitle toLowerCase (.array xs) (some t) = .ok (.array ys)
          ∧ filteredItemsByCategory toLowerCase (.array ys) (some c)
            = .ok (.array (xs.filter fun i =>
                titleMatches toLowerCase t i && categoryMatches toLowerCase c i))) := by
  refine ⟨filterBy_both_array toLowerCase xs t c, ?_, filter_inter_filter _ _ xs, ?_, ?_⟩
  · rw [filteringEffect_of_derivation toLowerCase _ _
      ((derivation_both toLowerCase _ t c ht hc).trans (filterBy_both_array toLowerCase xs t c))]
    rfl
  · intro i
    simp only [List.mem_filter, Bool.and_eq_true]
    tauto
  · refine ⟨_, filteredItemsByTitle_array toLowerCase t xs, ?_⟩
    rw [filteredItemsByCategory_array, List.filter_filter]
    congr 2
    apply List.filter_congr
    intro i _
    exact Bool.and_comm _ _

/-- C6: on a present catalog with a non-empty title filter `t` and the category
filter empty or absent, the filtering effect sets `filteredItems` to the catalog
items, in catalog order, whose lower-cased title contains the lower-cased `t`
as a substring: an item is in the result exactly when it is in the catalog and
matches. -/
theorem title_only_filter (toLowerCase : String → String) (s : Store)
    (xs : List Item) (t : String) (c : JsString) (ht : t ≠ "")
    (hc : c = none ∨ c = some "") :
    filteringEffect toLowerCase
        { s with items := .array xs, searchByTitle := some t, searchByCategory := c }
      = .ok { s with
          items := .array xs, searchByTitle := some t, searchByCategory := c,
          filteredItems := .array (xs.filter (titleMatches toLowerCase t)) }
    ∧ ∀ i, i ∈ xs.filter (titleMatches toLowerCase t)
        ↔ i ∈ xs ∧ (toLowerCase t).data <:+: (toLowerCase i.title).data := by
  constructor
  · rw [filteringEffect_of_derivation toLowerCase _ _
      ((derivation_title toLowerCase _ t c ht ((truthy_false_iff c).2 hc)).trans
        (filteredItemsByTitle_array toLowerCase t xs))]
    rfl
  · intro i
    rw [List.mem_filter, titleMatches, includes, includesChars_iff_infix]

/-- C7: on a present catalog with a non-empty category filter `c` and the title
filter empty or absent, the filtering effect sets `filteredItems` to the catalog
items, in catalog order, whose lower-cased `category.name` contains the
lower-cased `c` as a substring: an item is in the result exactly when it is in
the catalog and matches. -/
theorem category_only_filter (toLowerCase : String → String) (s : Store)
    (xs : List Item) (t : JsString) (c : String) (ht : t = none ∨ t = some "")
    (hc : c ≠ "") :
    filteringEffect toLowerCase
        { s with items := .array xs, searchByTitle := t, searchByCategory := some c }
      = .ok { s with
          items := .array xs, searchByTitle := t, searchByCategory := some c,
          filteredItems := .array (xs.filter (categoryMatches toLowerCase c)) }
    ∧ ∀ i, i ∈ xs.filter (categoryMatches toLowerCase c)
        ↔ i ∈ xs ∧ (toLowerCase c).data <:+: (toLowerCase i.category.name).data := by
  constructor
  · rw [filteringEffect_of_derivation toLowerCase _ _
      ((derivation_category toLowerCase _ t c ((truthy_false_iff t).2 ht) hc).trans
        (filteredItemsByCategory_array toLowerCase c xs))]
    rfl
  · intro i
    rw [List.mem_filter, categoryMatches, includes, includesChars_iff_infix]

/-- C8: for every catalog value (present or absent), when the title filter and
the category filter are each absent or the empty string, the filtering effect
sets `filteredItems` to the catalog itself, unchanged. -/
theorem no_filter_identity (toLowerCase : String → String) (s : Store)
    (items : ItemsVal) (t c : JsString) (ht : t = none ∨ t = some "")
    (hc : c = none ∨ c = some "") :
    filteringEffect toLowerCase
        { s with items := items, searchByTitle := t, searchByCategory := c }
      = .ok { s with
          items := items, searchByTitle := t, searchByCategory := c,
          filteredItems := items } := by
  rw [filteringEffect_of_derivation toLowerCase _ _
    (derivation_none toLowerCase _ t c ((truthy_false_iff t).2 ht) ((truthy_false_iff c).2 hc))]
  rfl

/-- The derivation fails only on an absent catalog with both filters set. -/
theorem derivation_ok_or_absent (toLowerCase : String → String) (items : ItemsVal)
    (t c : JsString) :
    (∃ v, derivation toLowerCase items t c = .ok v)
      ∨ (derivation toLowerCase items t c = .error .typeError
          ∧ (items = .null ∨ items = .undefined)
          ∧ truthy t = true ∧ truthy c = true) := by
  cases items with
  | array xs =>
    obtain ⟨ys, h, _⟩ := derivation_array toLowerCase xs t c
    exact Or.inl ⟨_, h⟩
  | null =>
    cases ht : truthy t <;> cases hc : truthy c
    · exact Or.inl ⟨_, derivation_none toLowerCase _ t c ht hc⟩
    · refine Or.inl ⟨.undefined, ?_⟩
      simp [derivation, ht, hc, filterBy_category, filteredItemsByCategory, optionalCallFilter]
    · refine Or.inl ⟨.undefined, ?_⟩
      simp [derivation, ht, hc, filterBy_title, filteredItemsByTitle, optionalCallFilter]
    · refine Or.inr ⟨?_, Or.inl rfl, rfl, rfl⟩
      simp [derivation, ht, hc, filterBy_both, filteredItemsByCategory, optionalCallFilter,
        callFilter]
  | undefined =>
    cases ht : truthy t <;> cases hc : truthy c
    · exact Or.inl ⟨_, derivation_none toLowerCase _ t c ht hc⟩
    · refine Or.inl ⟨.undefined, ?_⟩
      simp [derivation, ht, hc, filterBy_category, filteredItemsByCategory, optionalCallFilter]
    · refine Or.inl ⟨.undefined, ?_⟩
      simp [derivation, ht, hc, filterBy_title, filteredItemsByTitle, optionalCallFilter]
    · refine Or.inr ⟨?_, Or.inr rfl, rfl, rfl⟩
      simp [derivation, ht, hc, filterBy_both, filteredItemsByCategory, optionalCallFilter,
        callFilter]

theorem dispatch_ok (toLowerCase : String → String) (s s1 : Store) (a : Action)
    (h : dispatch toLowerCase s a = .ok s1) :
    derivation toLowerCase s1.items s1.searchByTitle s1.searchByCategory = .ok s1.filteredItems
      ∧ s1 = setFilteredItems (mutate s a) s1.filteredItems := by
  obtain ⟨h1, h2⟩ := filteringEffect_ok toLowerCase _ _ h
  refine ⟨?_, h2⟩
  have e1 : s1.items = (mutate s a).items := by rw [h2]; rfl
  have e2 : s1.searchByTitle = (mutate s a).searchByTitle := by rw [h2]; rfl
  have e3 : s1.searchByCategory = (mutate s a).searchByCategory := by rw [h2]; rfl
  rw [e1, e2, e3]
  exact h1

/-- With every exposed mutator followed by the filtering effect, in every
state reachable from the initial state `filteredItems` is the value of the
derivation on the current `(items, searchByTitle, searchByCategory)`; a
completed operation changes `filteredItems` to that value and to nothing else
(the rest of the state is what the mutator made it); `setSearchByTitle` keeps
every slot but `searchByTitle` and `filteredItems`, and sets `filteredItems` to
the derivation for the new title filter whenever that derivation has a value,
which it has on every present catalog (it is a `TypeError` only on an absent
catalog with both filters set). -/
theorem filteredItems_is_derived (toLowerCase : String → String) :
    (∀ s, Reachable toLowerCase s →
        derivation toLowerCase s.items s.searchByTitle s.searchByCategory
          = .ok s.filteredItems)
      ∧ (∀ s a s1, dispatch toLowerCase s a = .ok s1 →
          derivation toLowerCase (mutate s a).items (mutate s a).searchByTitle
              (mutate s a).searchByCategory = .ok s1.filteredItems
            ∧ s1 = setFilteredItems (mutate s a) s1.filteredItems)
      ∧ (∀ s t v, derivation toLowerCase s.items t s.searchByCategory = .ok v →
          dispatch toLowerCase s (.setSearchByTitle t)
            = .ok { s with searchByTitle := t, filteredItems := v })
      ∧ (∀ items t c, (∃ v, derivation toLowerCase items t c = .ok v)
          ∨ (derivation toLowerCase items t c = .error .typeError
              ∧ (items = .null ∨ items = .undefined)
              ∧ truthy t = true ∧ truthy c = true)) := by
  refine ⟨?_, ?_, ?_, derivation_ok_or_absent toLowerCase⟩
  · intro s hs
    induction hs with
    | initial => rfl
    | step a _ h _ => exact (dispatch_ok toLowerCase _ _ a h).1
  · intro s a s1 h
    exact filteringEffect_ok toLowerCase _ _ h
  · intro s t v h
    exact filteringEffect_of_derivation toLowerCase (mutate s (.setSearchByTitle t)) v h

/-- C10: on a present catalog, for every pair of filters (absent, empty or
non-empty), the filtering effect completes and sets `filteredItems` to an array
that is a sublist of the catalog: its items are catalog items, in catalog
order, none more often than in the catalog. -/
theorem filtered_is_sublist (toLowerCase : String → String) (s : Store)
    (xs : List Item) (t c : JsString) :
    ∃ ys, filteringEffect toLowerCase
          { s with items := .array xs, searchByTitle := t, searchByCategory := c }
        = .ok { s with
            items := .array xs, searchByTitle := t, searchByCategory := c,
            filteredItems := .array ys }
      ∧ ys.Sublist xs
      ∧ (∀ i, i ∈ ys → i ∈ xs)
      ∧ (∀ i, ys.count i ≤ xs.count i) := by
  obtain ⟨ys, h, hsub⟩ := derivation_array toLowerCase xs t c
  refine ⟨ys, ?_, hsub, fun i hi => hsub.subset hi, fun i => hsub.count_le i⟩
  rw [filteringEffect_of_derivation toLowerCase _ _ h]
  rfl

/-! ## The claims on the example catalog -/

/-- C5 on the example catalog: title "shirt" with category "clothes" gives the
first item only. -/
theorem both_filters_intersection_witness :
    "shirt" ≠ "" ∧ "clothes" ≠ ""
      ∧ filteringEffect asciiToLowerCase
          { Store.initial with
            items := .array exampleCatalog, searchByTitle := some "shirt",
            searchByCategory := some "clothes" }
        = .ok { Store.initial with
            items := .array exampleCatalog, searchByTitle := some "shirt",
            searchByCategory := some "clothes", filteredItems := .array [redShirt] } :=
  ⟨by decide, by decide,
    (both_filters_intersection asciiToLowerCase Store.initial exampleCatalog "shirt" "clothes"
      (by decide) (by decide)).2.1.trans (by rfl)⟩

/-- C6 on the example catalog: title filter "red" gives the first item only. -/
theorem title_only_filter_witness :
    "red" ≠ "" ∧ ((none : JsString) = none ∨ (none : JsString) = some "")
      ∧ filteringEffect asciiToLowerCase
          { Store.initial with
            items := .array exampleCatalog, searchByTitle := some "red",
            searchByCategory := none }
        = .ok { Store.initial with
            items := .array exampleCatalog, searchByTitle := some "red",
            searchByCategory := none, filteredItems := .array [redShirt] } :=
  ⟨by decide, Or.inl rfl,
    (title_only_filter asciiToLowerCase Store.initial exampleCatalog "red" none
      (by decide) (Or.inl rfl)).1.trans (by rfl)⟩

/-- C7 on the example catalog: category filter "accessories" gives the second
item only. -/
theorem category_only_filter_witness :
    ((some "" : JsString) = none ∨ (some "" : JsString) = some "") ∧ "accessories" ≠ ""
      ∧ filteringEffect asciiToLowerCase
          { Store.initial with
            items := .array exampleCatalog, searchByTitle := some "",
            searchByCategory := some "accessories" }
        = .ok { Store.initial with
            items := .array exampleCatalog, searchByTitle := some "",
            searchByCategory := some "accessories", filteredItems := .array [blueHat] } :=
  ⟨Or.inr rfl, by decide,
    (category_only_filter asciiToLowerCase Store.initial exampleCatalog (some "") "accessories"
      (Or.inr rfl) (by decide)).1.trans (by rfl)⟩

/-- C8 on the example catalog: with both filters empty both items are returned
in catalog order. -/
theorem no_filter_identity_witness :
    ((some "" : JsString) = none ∨ (some "" : JsString) = some "")
      ∧ filteringEffect asciiToLowerCase
          { Store.initial with
            items := .array exampleCatalog, searchByTitle := some "",
            searchByCategory := some "" }
        = .ok { Store.initial with
            items := .array exampleCatalog, searchByTitle := some "",
            searchByCategory := some "", filteredItems := .array [redShirt, blueHat] } :=
  ⟨Or.inr rfl,
    no_filter_identity asciiToLowerCase Store.initial (.array exampleCatalog) (some "") (some "")
      (Or.inr rfl) (Or.inr rfl)⟩

/-- On a run: after `setItems` with the example catalog and
`setSearchByTitle` with "red" the state is reachable, and its `filteredItems`,
the first item only, is the derivation of its inputs. -/
theorem filteredItems_is_derived_witness :
    Reachable asciiToLowerCase
        { Store.initial with
          items := .array exampleCatalog, searchByTitle := some "red",
          filteredItems := .array [redShirt] }
      ∧ derivation asciiToLowerCase (.array exampleCatalog) (some "red") none
        = .ok (.array [redShirt]) :=
  have hr : Reachable asciiToLowerCase
      { Store.initial with
        items := .array exampleCatalog, searchByTitle := some "red",
        filteredItems := .array [redShirt] } :=
    Reachable.step (.setSearchByTitle (some "red"))
      (Reachable.step (.setItems (.array exampleCatalog)) Reachable.initial rfl)
      ((filteredItems_is_derived asciiToLowerCase).2.2.1 _ (some "red") (.array [redShirt]) rfl)
  ⟨hr, (filteredItems_is_derived asciiToLowerCase).1 _ hr⟩

/-- C10 on the example catalog: with title filter "hat" the result is a sublist
of the catalog. -/
theorem filtered_is_sublist_witness :
    ∃ ys, filteringEffect asciiToLowerCase
          { Store.initial with
            items := .array exampleCatalog, searchByTitle := some "hat",
            searchByCategory := none }
        = .ok { Store.initial with
            items := .array exampleCatalog, searchByTitle := some "hat",
            searchByCategory := none, filteredItems := .array ys }
      ∧ ys.Sublist exampleCatalog
      ∧ (∀ i, i ∈ ys → i ∈ exampleCatalog)
      ∧ (∀ i, ys.count i ≤ exampleCatalog.count i) :=
  filtered_is_sublist asciiToLowerCase Store.initial exampleCatalog (some "hat") none

/-! ## Lemmas on the storage -/

theorem getItem_setItem_self (ls : Storage) (key value : String) :
    (ls.setItem key value).getItem key = some value := by
  induction ls with
  | nil => simp [Storage.setItem, Storage.getItem]
  | cons kv rest ih =>
    obtain ⟨k, v⟩ := kv
    by_cases h : k = key <;> simp [Storage.setItem, Storage.getItem, h, ih]

theorem getItem_setItem_of_ne (ls : Storage) (key value other : String) (h : other ≠ key) :
    (ls.setItem key value).getItem other = ls.getItem other := by
  induction ls with
  | nil => simp [Storage.setItem, Storage.getItem, Ne.symm h]
  | cons kv rest ih =>
    obtain ⟨k, v⟩ := kv
    by_cases hk : k = key
    · subst hk
      simp [Storage.setItem, Storage.getItem, Ne.symm h]
    · by_cases ho : k = other
      · subst ho
        simp [Storage.setItem, Storage.getItem, hk]
      · simp [Storage.setItem, Storage.getItem, hk, ho, ih]

theorem stringify_empty_object : JSON.stringify (.object []) = "{}" := by decide

theorem stringify_false : JSON.stringify (.bool false) = "false" := by decide

/-- The run of `initializeLocalStorage`, by cases on what the two keys held
before the call. -/
theorem initializeLocalStorage_eq (ls : Storage) :
    initializeLocalStorage ls
      = if truthy (ls.getItem "account") = false then
          if truthy (ls.getItem "signOut") = false then
            { storage := (ls.setItem "account" "{}").setItem "signOut" "false"
              writes := [("account", "{}"), ("signOut", "false")]
              outcome := .ok () }
          else
            match JSON.parseStored (ls.getItem "signOut") with
            | .error e =>
              { storage := ls.setItem "account" "{}", writes := [("account", "{}")],
                outcome := .error e }
            | .ok _ =>
              { storage := ls.setItem "account" "{}", writes := [("account", "{}")],
                outcome := .ok () }
        else
          match JSON.parseStored (ls.getItem "account") with
          | .error e => { storage := ls, writes := [], outcome := .error e }
          | .ok _ =>
            if truthy (ls.getItem "signOut") = false then
              { storage := ls.setItem "signOut" "false", writes := [("signOut", "false")],
                outcome := .ok () }
            else
              match JSON.parseStored (ls.getItem "signOut") with
              | .error e => { storage := ls, writes := [], outcome := .error e }
              | .ok _ => { storage := ls, writes := [], outcome := .ok () } := by
  unfold initializeLocalStorage
  simp only [stringify_empty_object, stringify_false]
  cases ha : truthy (ls.getItem "account") <;> cases hs : truthy (ls.getItem "signOut") <;>
    cases hpa : JSON.parseStored (ls.getItem "account") <;>
    cases hps : JSON.parseStored (ls.getItem "signOut") <;> simp

theorem truthy_stored (ls : Storage) (key text : String) (h : ls.getItem key = some text)
    (hne : text ≠ "") : truthy (ls.getItem key) = true := by
  rw [h]
  exact truthy_some hne

/-! ## The storage claims -/

/-- C2 (the code departs from the claim): a storage in which 'account' is
present with the empty string as its text has that text replaced by the default
`{}` by `initializeLocalStorage`, and likewise 'signOut' by `false`: the guard
`!value` holds for the empty string as it does for an absent key. -/
theorem empty_text_is_overwritten :
    Storage.getItem [("account", "")] "account" = some ""
      ∧ (initializeLocalStorage [("account", "")]).storage.getItem "account" = some "{}"
      ∧ Storage.getItem [("signOut", "")] "signOut" = some ""
      ∧ (initializeLocalStorage [("signOut", "")]).storage.getItem "signOut" = some "false" := by
  decide

/-- For each of the keys 'account' and 'signOut', if the key holds
non-empty text before the call, it holds the same text after
`initializeLocalStorage`, whether the call returns or throws. -/
theorem nonempty_text_is_preserved (ls : Storage) (key text : String)
    (hkey : key = "account" ∨ key = "signOut") (h : ls.getItem key = some text)
    (hne : text ≠ "") :
    (initializeLocalStorage ls).storage.getItem key = some text := by
  have hsa := getItem_setItem_of_ne ls "signOut" "false" "account" (by decide)
  have has := getItem_setItem_of_ne ls "account" "{}" "signOut" (by decide)
  have ht := truthy_stored ls key text h hne
  rw [initializeLocalStorage_eq]
  rcases hkey with rfl | rfl
  · rw [ht]
    simp only [Bool.true_eq_false, if_false]
    repeat' split
    all_goals simp only [hsa, h]
  · rw [ht]
    simp only [Bool.true_eq_false, if_false]
    repeat' split
    all_goals simp only [has, h]

/-- On the example of the specification: 'account' holding the text of the
object with `id` 5 holds it after the call. -/
theorem nonempty_text_is_preserved_witness :
    ("account" = "account" ∨ "account" = "signOut")
      ∧ Storage.getItem [("account", idFiveText)] "account" = some idFiveText
      ∧ idFiveText ≠ ""
      ∧ (initializeLocalStorage [("account", idFiveText)]).storage.getItem "account"
        = some idFiveText :=
  ⟨Or.inl rfl, rfl, by decide,
    nonempty_text_is_preserved [("account", idFiveText)] "account" idFiveText
      (Or.inl rfl) rfl (by decide)⟩

/-- C3: `initializeLocalStorage` is idempotent on storage: run on the storage a
first call has left, it leaves that storage as it is, performs no `setItem`,
and ends as the first call did. -/
theorem initialize_is_idempotent (ls : Storage) :
    (initializeLocalStorage (initializeLocalStorage ls).storage).storage
        = (initializeLocalStorage ls).storage
      ∧ (initializeLocalStorage (initializeLocalStorage ls).storage).writes = []
      ∧ (initializeLocalStorage (initializeLocalStorage ls).storage).outcome
        = (initializeLocalStorage ls).outcome := by
  have hsa := getItem_setItem_of_ne ls "signOut" "false" "account" (by decide)
  have has := getItem_setItem_of_ne ls "account" "{}" "signOut" (by decide)
  have hsa2 := getItem_setItem_of_ne (ls.setItem "account" "{}") "signOut" "false" "account"
    (by decide)
  have haa := getItem_setItem_self ls "account" "{}"
  have hss := getItem_setItem_self ls "signOut" "false"
  have hss2 := getItem_setItem_self (ls.setItem "account" "{}") "signOut" "false"
  have hpa : JSON.parseStored (some "{}") = .ok (.object []) := rfl
  have hps : JSON.parseStored (some "false") = .ok (.bool false) := rfl
  have hta : truthy (some "{}") = true := rfl
  have hts : truthy (some "false") = true := rfl
  rw [initializeLocalStorage_eq ls]
  cases ha : truthy (ls.getItem "account") <;> cases hs : truthy (ls.getItem "signOut") <;>
    cases hqa : JSON.parseStored (ls.getItem "account") <;>
    cases hqs : JSON.parseStored (ls.getItem "signOut") <;>
    simp [initializeLocalStorage_eq, hsa, has, hsa2, haa, hss, hss2, hpa, hps, hta, hts,
      ha, hs, hqa, hqs]

/-- C4 (the code departs from the claim): when 'account' holds text that is
not JSON and 'signOut' is absent, the call throws at the 'account' statement
and 'signOut' is still absent afterwards, not seeded with `false`.  In the
mirrored storage ('signOut' holding that text, 'account' absent) 'account' is
seeded with `{}` before the call throws. -/
theorem signOut_not_seeded_after_throw :
    Storage.getItem [("account", "not json")] "signOut" = none
      ∧ (initializeLocalStorage [("account", "not json")]).outcome = .error .syntaxError
      ∧ (initializeLocalStorage [("account", "not json")]).storage.getItem "signOut" = none
      ∧ Storage.getItem [("signOut", "not json")] "account" = none
      ∧ (initializeLocalStorage [("signOut", "not json")]).outcome = .error .syntaxError
      ∧ (initializeLocalStorage [("signOut", "not json")]).storage.getItem "account"
        = some "{}" := by
  refine ⟨rfl, rfl, ?_, rfl, rfl, ?_⟩ <;> decide

/-- From a storage with neither key, after the call 'account'
holds `{}`, which decodes to the empty object, 'signOut' holds `false`, which
decodes to the boolean false, and the call returns.  Taken separately:
'account' absent before holds `{}` afterwards; 'signOut' absent before holds
`false` afterwards provided the text of 'account' is absent, empty or decodes. -/
theorem absent_keys_are_seeded (ls : Storage) :
    (ls.getItem "account" = none → ls.getItem "signOut" = none →
        (initializeLocalStorage ls).storage.getItem "account" = some "{}"
          ∧ JSON.parseStored ((initializeLocalStorage ls).storage.getItem "account")
            = .ok (.object [])
          ∧ (initializeLocalStorage ls).storage.getItem "signOut" = some "false"
          ∧ JSON.parseStored ((initializeLocalStorage ls).storage.getItem "signOut")
            = .ok (.bool false)
          ∧ (initializeLocalStorage ls).outcome = .ok ())
      ∧ (ls.getItem "account" = none →
          (initializeLocalStorage ls).storage.getItem "account" = some "{}")
      ∧ (ls.getItem "signOut" = none →
          (truthy (ls.getItem "account") = false
            ∨ ∃ v, JSON.parseStored (ls.getItem "account") = .ok v) →
          (initializeLocalStorage ls).storage.getItem "signOut" = some "false") := by
  have hsa2 := getItem_setItem_of_ne (ls.setItem "account" "{}") "signOut" "false" "account"
    (by decide)
  have haa := getItem_setItem_self ls "account" "{}"
  have hss := getItem_setItem_self ls "signOut" "false"
  have hss2 := getItem_setItem_self (ls.setItem "account" "{}") "signOut" "false"
  have hn : truthy none = false := rfl
  refine ⟨?_, ?_, ?_⟩
  · intro ha hs
    rw [initializeLocalStorage_eq, ha, hs]
    simp only [hn, if_true, hsa2, haa, hss2]
    exact ⟨trivial, rfl, trivial, rfl, trivial⟩
  · intro ha
    rw [initializeLocalStorage_eq, ha]
    simp only [hn, if_true]
    repeat' split
    all_goals simp only [hsa2, haa]
  · intro hs hacc
    rw [initializeLocalStorage_eq, hs]
    simp only [hn, if_true]
    rcases hacc with hf | ⟨v, hv⟩
    · simp only [hf, if_true, hss2]
    · rw [hv]
      split
      · exact hss2
      · exact hss

/-- On the empty storage: both keys are seeded and decode to their defaults. -/
theorem absent_keys_are_seeded_witness :
    Storage.getItem [] "account" = none ∧ Storage.getItem [] "signOut" = none
      ∧ (initializeLocalStorage []).storage = [("account", "{}"), ("signOut", "false")]
      ∧ JSON.parseStored ((initializeLocalStorage []).storage.getItem "account")
        = .ok (.object [])
      ∧ JSON.parseStored ((initializeLocalStorage []).storage.getItem "signOut")
        = .ok (.bool false) :=
  ⟨rfl, rfl, rfl, ((absent_keys_are_seeded []).1 rfl rfl).2.1,
    ((absent_keys_are_seeded []).1 rfl rfl).2.2.2.1⟩

/-! ## Lemmas on the recorded effect -/

theorem filterBy_of_fallThrough (toLowerCase : String → String) (searchType : JsString)
    (items : ItemsVal) (t c : JsString) (h : filterByBranch searchType = .fallThrough) :
    filterBy toLowerCase searchType items t c = .ok .undefined := by
  unfold filterByBranch at h
  unfold filterBy
  split_ifs at h ⊢
  rfl

theorem filteringEffectRun_outcome (toLowerCase : String → String) (s : Store) :
    (filteringEffectRun toLowerCase s).outcome = filteringEffect toLowerCase s := by
  unfold filteringEffectRun effectStatements filteringEffect effectStatement
  cases truthy s.searchByTitle <;> cases truthy s.searchByCategory <;>
    simp [runStatements] <;> split <;> simp_all

theorem filteringEffectRun_calls (toLowerCase : String → String) (s : Store) :
    (filteringEffectRun toLowerCase s).searchTypes.length = 1
      ∧ (filteringEffectRun toLowerCase s).searchTypes.all
          (fun st => filterByBranch st != .fallThrough) = true
      ∧ ((filteringEffectRun toLowerCase s).setterCalls.length = 1
          ↔ ∃ s1, (filteringEffectRun toLowerCase s).outcome = .ok s1) := by
  have b1 : filterByBranch (some "BY_TITLE_AND_CATEGORY") = .byTitleAndCategory := by decide
  have b2 : filterByBranch (some "BY_TITLE") = .byTitle := by decide
  have b3 : filterByBranch (some "BY_CATEGORY") = .byCategory := by decide
  have b4 : filterByBranch none = .falsyType := by decide
  unfold filteringEffectRun effectStatements
  cases truthy s.searchByTitle <;> cases truthy s.searchByCategory <;>
    simp [runStatements] <;> split <;> simp_all

/-! ## The remaining claims -/

/-- C11: in every store state `openProductDetail` sets `isProductDetailOpen` to
true and `closeProductDetail` sets it to false, `openCheckoutSideMenu` sets
`isCheckoutSideMenuOpen` to true and `closeCheckoutSideMenu` sets it to false;
each of the four changes that one slot and nothing else, so the other panel's
flag is unchanged; and the filtering effect that may follow keeps both flags. -/
theorem panel_toggles_independent (toLowerCase : String → String) (s : Store) :
    mutate s .openProductDetail = { s with isProductDetailOpen := true }
      ∧ mutate s .closeProductDetail = { s with isProductDetailOpen := false }
      ∧ mutate s .openCheckoutSideMenu = { s with isCheckoutSideMenuOpen := true }
      ∧ mutate s .closeCheckoutSideMenu = { s with isCheckoutSideMenuOpen := false }
      ∧ (mutate s .openProductDetail).isProductDetailOpen = true
      ∧ (mutate s .openProductDetail).isCheckoutSideMenuOpen = s.isCheckoutSideMenuOpen
      ∧ (mutate s .closeProductDetail).isProductDetailOpen = false
      ∧ (mutate s .closeProductDetail).isCheckoutSideMenuOpen = s.isCheckoutSideMenuOpen
      ∧ (mutate s .openCheckoutSideMenu).isCheckoutSideMenuOpen = true
      ∧ (mutate s .openCheckoutSideMenu).isProductDetailOpen = s.isProductDetailOpen
      ∧ (mutate s .closeCheckoutSideMenu).isCheckoutSideMenuOpen = false
      ∧ (mutate s .closeCheckoutSideMenu).isProductDetailOpen = s.isProductDetailOpen
      ∧ (∀ s1, filteringEffect toLowerCase s = .ok s1 →
          s1.isProductDetailOpen = s.isProductDetailOpen
            ∧ s1.isCheckoutSideMenuOpen = s.isCheckoutSideMenuOpen) := by
  refine ⟨rfl, rfl, rfl, rfl, rfl, rfl, rfl, rfl, rfl, rfl, rfl, rfl, ?_⟩
  intro s1 h
  have h2 := (filteringEffect_ok toLowerCase s s1 h).2
  constructor
  · rw [h2]; rfl
  · rw [h2]; rfl

/-- C11 on a run: opening the product detail in the initial state and running
the effect gives a state with the product detail open and the checkout menu
closed as before. -/
theorem panel_toggles_independent_witness :
    filteringEffect asciiToLowerCase (mutate Store.initial .openProductDetail)
        = .ok { Store.initial with isProductDetailOpen := true }
      ∧ ({ Store.initial with isProductDetailOpen := true } : Store).isProductDetailOpen
        = (mutate Store.initial .openProductDetail).isProductDetailOpen
      ∧ ({ Store.initial with isProductDetailOpen := true } : Store).isCheckoutSideMenuOpen
        = (mutate Store.initial .openProductDetail).isCheckoutSideMenuOpen :=
  ⟨rfl,
    ((panel_toggles_independent asciiToLowerCase
      (mutate Store.initial .openProductDetail)).2.2.2.2.2.2.2.2.2.2.2.2 _ rfl).1,
    ((panel_toggles_independent asciiToLowerCase
      (mutate Store.initial .openProductDetail)).2.2.2.2.2.2.2.2.2.2.2.2 _ rfl).2⟩

theorem parse_error_is_syntaxError (text : String) (e : JsError)
    (h : JSON.parse text = .error e) : e = .syntaxError := by
  unfold JSON.parse at h
  split at h
  · simp at h
  · simp only [Except.error.injEq] at h
    exact h.symm

theorem truthy_iff (x : JsString) :
    truthy x = true ↔ ∃ text, x = some text ∧ text ≠ "" := by
  cases x <;> simp [truthy]

theorem getItem_setItem_isSome (ls : Storage) (key value other : String)
    (h : (ls.getItem other).isSome = true) :
    ((ls.setItem key value).getItem other).isSome = true := by
  by_cases ho : other = key
  · subst ho
    rw [getItem_setItem_self]
    rfl
  · rw [getItem_setItem_of_ne ls key value other ho]
    exact h

/-- C12: `initializeLocalStorage` throws exactly when 'account' or 'signOut'
holds non-empty text that `JSON.parse` rejects, and the exception is then the
`SyntaxError` of `JSON.parse`; a key that holds such text keeps it after the
call and is not written, so it is not reseeded with its default. -/
theorem throws_iff_malformed (ls : Storage) :
    ((∃ e, (initializeLocalStorage ls).outcome = .error e)
        ↔ ((∃ text, ls.getItem "account" = some text ∧ text ≠ ""
              ∧ ∃ e, JSON.parse text = .error e)
          ∨ (∃ text, ls.getItem "signOut" = some text ∧ text ≠ ""
              ∧ ∃ e, JSON.parse text = .error e)))
      ∧ ((∃ e, (initializeLocalStorage ls).outcome = .error e)
        ↔ (initializeLocalStorage ls).outcome = .error .syntaxError)
      ∧ (∀ key text, (key = "account" ∨ key = "signOut") → ls.getItem key = some text →
          text ≠ "" → (∃ e, JSON.parse text = .error e) →
          (initializeLocalStorage ls).storage.getItem key = some text
            ∧ (initializeLocalStorage ls).writes.all (fun w => w.1 != key) = true) := by
  have hsa := getItem_setItem_of_ne ls "signOut" "false" "account" (by decide)
  have has := getItem_setItem_of_ne ls "account" "{}" "signOut" (by decide)
  refine ⟨?_, ?_, ?_⟩
  · rw [initializeLocalStorage_eq]
    rcases ha : ls.getItem "account" with _ | a <;> rcases hs : ls.getItem "signOut" with _ | b
    · simp [truthy]
    · by_cases hb : b = ""
      · simp [truthy, hb]
      · cases hpb : JSON.parse b <;> simp [truthy, hb, JSON.parseStored, hpb]
    · by_cases hna : a = ""
      · simp [truthy, hna]
      · cases hpa : JSON.parse a <;> simp [truthy, hna, JSON.parseStored, hpa]
    · by_cases hna : a = "" <;> by_cases hb : b = ""
      · simp [truthy, hna, hb]
      · cases hpb : JSON.parse b <;> simp [truthy, hna, hb, JSON.parseStored, hpb]
      · cases hpa : JSON.parse a <;> simp [truthy, hna, hb, JSON.parseStored, hpa]
      · cases hpa : JSON.parse a <;> cases hpb : JSON.parse b <;>
          simp [truthy, hna, hb, JSON.parseStored, hpa, hpb]
  · constructor
    · rintro ⟨e, he⟩
      have hsyn : e = .syntaxError := by
        rw [initializeLocalStorage_eq] at he
        rcases ha : ls.getItem "account" with _ | a <;>
          rcases hs : ls.getItem "signOut" with _ | b <;>
          simp only [ha, hs] at he
        · simp [truthy] at he
        · by_cases hb : b = ""
          · simp [truthy, hb] at he
          · cases hpb : JSON.parse b <;> simp [truthy, hb, JSON.parseStored, hpb] at he
            exact parse_error_is_syntaxError b _ (he ▸ hpb)
        · by_cases hna : a = ""
          · simp [truthy, hna] at he
          · cases hpa : JSON.parse a <;> simp [truthy, hna, JSON.parseStored, hpa] at he
            exact parse_error_is_syntaxError a _ (he ▸ hpa)
        · by_cases hna : a = "" <;> by_cases hb : b = ""
          · simp [truthy, hna, hb] at he
          · cases hpb : JSON.parse b <;> simp [truthy, hna, hb, JSON.parseStored, hpb] at he
            exact parse_error_is_syntaxError b _ (he ▸ hpb)
          · cases hpa : JSON.parse a <;> simp [truthy, hna, hb, JSON.parseStored, hpa] at he
            exact parse_error_is_syntaxError a _ (he ▸ hpa)
          · cases hpa : JSON.parse a <;> cases hpb : JSON.parse b <;>
              simp [truthy, hna, hb, JSON.parseStored, hpa, hpb] at he
            · exact parse_error_is_syntaxError a _ (he ▸ hpa)
            · exact parse_error_is_syntaxError a _ (he ▸ hpa)
            · exact parse_error_is_syntaxError b _ (he ▸ hpb)
      rw [he, hsyn]
    · intro h
      exact ⟨_, h⟩
  · intro key text hkey hget hne hbad
    obtain ⟨e, he⟩ := hbad
    have ht := truthy_stored ls key text hget hne
    rw [initializeLocalStorage_eq]
    rcases hkey with rfl | rfl
    · simp [truthy_some hne, hget, JSON.parseStored, he]
    · rw [hget] at ht
      cases hta : truthy (ls.getItem "account") <;>
        cases hpa : JSON.parseStored (ls.getItem "account") <;>
        simp [hget, ht, JSON.parseStored, he, has]

/-- C12 on a storage whose 'account' text is not JSON: the call throws and the
text is still there. -/
theorem throws_iff_malformed_witness :
    (∃ e, (initializeLocalStorage [("account", "not json")]).outcome = .error e)
      ∧ (initializeLocalStorage [("account", "not json")]).storage.getItem "account"
        = some "not json" :=
  ⟨(throws_iff_malformed [("account", "not json")]).1.2
      (Or.inl ⟨"not json", rfl, by decide, .syntaxError, rfl⟩),
    ((throws_iff_malformed [("account", "not json")]).2.2 "account" "not json" (Or.inl rfl) rfl
      (by decide) ⟨.syntaxError, rfl⟩).1⟩

/-- C13 (the code departs from the claim): with the catalog absent and both
filters set, the effect makes its one call of `filterBy`, which throws, and
does not call `setFilteredItems` at all.  For every pair of filters exactly one
guard is true; every run makes exactly one call of `filterBy`, with a search
type that does not fall through; and a run calls `setFilteredItems` exactly
once exactly when it completes. -/
theorem setter_not_called_on_absent_catalog (toLowerCase : String → String) :
    (filteringEffectRun toLowerCase absentCatalogBothFilters).setterCalls = []
      ∧ (filteringEffectRun toLowerCase absentCatalogBothFilters).searchTypes
        = [some "BY_TITLE_AND_CATEGORY"]
      ∧ (filteringEffectRun toLowerCase absentCatalogBothFilters).outcome
        = .error .typeError
      ∧ (∀ t c, ((effectStatements t c).filter (fun st => st.1)).length = 1)
      ∧ (∀ s, (filteringEffectRun toLowerCase s).outcome = filteringEffect toLowerCase s)
      ∧ (∀ s, (filteringEffectRun toLowerCase s).searchTypes.length = 1
          ∧ (filteringEffectRun toLowerCase s).searchTypes.all
              (fun st => filterByBranch st != .fallThrough) = true
          ∧ ((filteringEffectRun toLowerCase s).setterCalls.length = 1
              ↔ ∃ s1, (filteringEffectRun toLowerCase s).outcome = .ok s1)) := by
  have hf : filterBy toLowerCase (some "BY_TITLE_AND_CATEGORY") .null (some "shirt")
      (some "clothes") = .error .typeError := by
    rw [filterBy_both]; rfl
  refine ⟨?_, ?_, ?_, ?_, filteringEffectRun_outcome toLowerCase,
    filteringEffectRun_calls toLowerCase⟩
  · simp [filteringEffectRun, effectStatements, absentCatalogBothFilters, Store.initial,
      runStatements, truthy, hf]
  · simp [filteringEffectRun, effectStatements, absentCatalogBothFilters, Store.initial,
      runStatements, truthy, hf]
  · simp [filteringEffectRun, effectStatements, absentCatalogBothFilters, Store.initial,
      runStatements, truthy, hf]
  · intro t c
    unfold effectStatements
    cases truthy t <;> cases truthy c <;> rfl

/-- C14: for every storage and every key other than 'account' and 'signOut',
the key holds after `initializeLocalStorage` what it held before (the same
text, or nothing), whether the call returns or throws; and every key present
before the call, these two included, is present after it. -/
theorem other_keys_untouched (ls : Storage) :
    (∀ key, key ≠ "account" → key ≠ "signOut" →
        (initializeLocalStorage ls).storage.getItem key = ls.getItem key)
      ∧ (∀ key, (ls.getItem key).isSome = true →
          ((initializeLocalStorage ls).storage.getItem key).isSome = true) := by
  constructor
  · intro key h1 h2
    have e1 := getItem_setItem_of_ne ls "account" "{}" key h1
    have e2 := getItem_setItem_of_ne ls "signOut" "false" key h2
    have e3 := getItem_setItem_of_ne (ls.setItem "account" "{}") "signOut" "false" key h2
    rw [initializeLocalStorage_eq]
    repeat' split
    all_goals simp only [e1, e2, e3]
  · intro key h
    have i1 := getItem_setItem_isSome ls "account" "{}" key h
    have i2 := getItem_setItem_isSome ls "signOut" "false" key h
    have i3 := getItem_setItem_isSome (ls.setItem "account" "{}") "signOut" "false" key i1
    rw [initializeLocalStorage_eq]
    repeat' split
    all_goals first | exact h | exact i1 | exact i2 | exact i3

/-- C14 on a storage with a third key: with 'signOut' holding text that is not
JSON the call seeds 'account' and throws, and the key 'theme' holds its text as
before. -/
theorem other_keys_untouched_witness :
    "theme" ≠ "account" ∧ "theme" ≠ "signOut"
      ∧ (initializeLocalStorage [("signOut", "x"), ("theme", "dark")]).outcome
        = .error .syntaxError
      ∧ (initializeLocalStorage [("signOut", "x"), ("theme", "dark")]).storage.getItem "theme"
        = some "dark" :=
  ⟨by decide, by decide, rfl,
    (other_keys_untouched [("signOut", "x"), ("theme", "dark")]).1 "theme"
      (by decide) (by decide)⟩

/-- C9 (the code departs from the claim): from the initial state, in which the
catalog is absent, `setSearchByCategory` with "clothes" completes and leaves
`filteredItems` `undefined`; in that reachable state `setSearchByTitle` with
"shirt" does not make `filteredItems` the derivation for the new title filter:
the derivation and the filtering effect throw a `TypeError`. -/
theorem setSearchByTitle_throws_on_absent_catalog (toLowerCase : String → String) :
    dispatch toLowerCase Store.initial (.setSearchByCategory (some "clothes"))
        = .ok { Store.initial with
            searchByCategory := some "clothes", filteredItems := .undefined }
      ∧ Reachable toLowerCase
          { Store.initial with searchByCategory := some "clothes", filteredItems := .undefined }
      ∧ derivation toLowerCase ItemsVal.null (some "shirt") (some "clothes")
        = .error .typeError
      ∧ dispatch toLowerCase
          { Store.initial with searchByCategory := some "clothes", filteredItems := .undefined }
          (.setSearchByTitle (some "shirt"))
        = .error .typeError :=
  ⟨rfl, Reachable.step (.setSearchByCategory (some "clothes")) Reachable.initial rfl, rfl, rfl⟩

end ShoppingCart
